import Mathlib

/-
  Verification development for the Property-Listing backend controller layer
  (src/api/listingProperty/listingProperty.service.js).

  The service is shallowly embedded: each controller action becomes a pure
  Lean function over an explicit cache state, database state and request
  data, returning the HTTP response together with the updated stores and a
  trace of external-store events.  Machine-level JS details (BSON values,
  Redis key-value semantics, JSON serialisation of the filter document) are
  modelled explicitly below, each next to the source construct it embeds.
-/

set_option autoImplicit false
set_option linter.unusedVariables false

namespace PropertyListing

/-- BSON-like runtime value.  A MongoDB ObjectId and a plain string are
distinct values that never compare equal, which the embedding must keep
(the service stores listerId as a raw string on create but filters with an
ObjectId on read). -/
inductive BVal where
  | vStr : String → BVal
  | vOid : String → BVal
  | vBool : Bool → BVal
  | vNum : Int → BVal
deriving DecidableEq, Repr

/-- A document is an association list of field names to values, the order
being JS object insertion order. -/
abbrev Doc := List (String × BVal)

/-- Field lookup in a document (first binding wins, as in a JS object where
keys are unique). -/
def getField (d : Doc) (k : String) : Option BVal :=
  (d.find? (fun p => p.1 = k)).map (fun p => p.2)

/-- JS object field assignment: overwrite an existing key in place, else
append the binding. -/
def setField (d : Doc) (k : String) (v : BVal) : Doc :=
  if d.any (fun p => p.1 = k) then
    d.map (fun p => if p.1 = k then (k, v) else p)
  else d ++ [(k, v)]

/-- MongoDB $set: apply every binding of the update document in order. -/
def applySet (d : Doc) (s : Doc) : Doc :=
  s.foldl (fun acc kv => setField acc kv.1 kv.2) d

/-- Equality-filter match: the document carries every field of the filter
with exactly the filter value (typed BSON equality, so an ObjectId never
matches a string). -/
def matchesEq (d : Doc) (fil : Doc) : Bool :=
  fil.all (fun kv => decide (getField d kv.1 = some kv.2))

/-- Modelled from the spec: the persistence store (the queries module is
not under src/) offers find(filter) returning every matching document. -/
abbrev DB := List Doc

def dbFind (db : DB) (fil : Doc) : List Doc :=
  db.filter (fun d => matchesEq d fil)

/-- Modelled from the spec: findOneAndUpdate semantics for
queries.updateProperty — update the first matching document with $set and
return it, or return none leaving the store unchanged. -/
def dbFindOneAndUpdate : DB → Doc → Doc → Option Doc × DB
  | [], _, _ => (none, [])
  | d :: rest, fil, s =>
    if matchesEq d fil then (some (applySet d s), applySet d s :: rest)
    else
      let r := dbFindOneAndUpdate rest fil s
      (r.1, d :: r.2)

/-- Modelled from the spec: findOneAndDelete semantics for
queries.deleteProperty — remove and return the first matching document, or
return none leaving the store unchanged. -/
def dbFindOneAndDelete : DB → Doc → Option Doc × DB
  | [], _ => (none, [])
  | d :: rest, fil =>
    if matchesEq d fil then (some d, rest)
    else
      let r := dbFindOneAndDelete rest fil
      (r.1, d :: r.2)

/-- Modelled from the spec: queries.createProperty inserts the document and
returns it. -/
def dbInsert (db : DB) (d : Doc) : DB := db ++ [d]

/-- The cache store is a key-value map (most recent binding first). -/
abbrev Cache := List (String × String)

def redisGet (c : Cache) (k : String) : Option String :=
  (c.find? (fun p => p.1 = k)).map (fun p => p.2)

def redisSetex (c : Cache) (k : String) (v : String) : Cache :=
  (k, v) :: c.filter (fun p => p.1 ≠ k)

/-- Modelled from the spec: the cache client (src/helper/redisClient.js is
not under src/) wraps a standard Redis connection, and the Redis DEL
command removes exactly the literal keys it is given — it performs no glob
or pattern matching, as the design notes of the spec themselves point out
for del with a properties:* argument. -/
def redisDel (c : Cache) (k : String) : Cache :=
  c.filter (fun p => p.1 ≠ k)

/-- Modelled from the spec: two tunable TTLs from the config module (not
under src/); only their roles matter, not the values. -/
def PROPERTY_CACHE_TTL : Nat := 300

def CACHE_TTL : Nat := 3600

/-- A request query parameter that may arrive as a single string or as a
list of strings (qs array syntax). -/
inductive StrOrList where
  | str : String → StrOrList
  | list : List String → StrOrList
deriving DecidableEq, Repr

/-- The optional query parameters of GET /properties, all raw strings as
Express delivers them. -/
structure QueryParams where
  typeId : Option String := none
  stateId : Option String := none
  cityId : Option String := none
  title : Option String := none
  availableFrom : Option String := none
  minPrice : Option String := none
  maxPrice : Option String := none
  minBedrooms : Option String := none
  minBathrooms : Option String := none
  minRating : Option String := none
  listingType : Option String := none
  furnished : Option String := none
  amenityIds : Option StrOrList := none
  tagIds : Option StrOrList := none
deriving DecidableEq, Repr

/-- JS truthiness of an optional string parameter: absent and the empty
string are falsy, every other string is truthy. -/
def truthy : Option String → Bool
  | none => false
  | some s => s ≠ ""

/-- JS truthiness for a string-or-array parameter: an array is always
truthy (even when empty), a string is truthy when nonempty. -/
def truthyIds : Option StrOrList → Bool
  | none => false
  | some (.str s) => s ≠ ""
  | some (.list _) => true

def isHexDigitCh (c : Char) : Bool :=
  c.isDigit || ('a' ≤ c && c ≤ 'f') || ('A' ≤ c && c ≤ 'F')

/-- Validity domain of the mongodb ObjectId constructor on string input: a
24-character hex string (the 12-byte binary form is not modelled). -/
def isValidObjectId (s : String) : Bool :=
  s.length = 24 && s.toList.all isHexDigitCh

/-- new ObjectId(s): returns the id (kept as its hex string) or throws a
BSONError for malformed input. -/
def newObjectId (s : String) : Except String String :=
  if isValidObjectId s then .ok s
  else .error "input must be a 24 character hex string"

/-- A JS number that may be NaN (Number() on a non-numeric string).  Only
the integer fragment is modelled; the claims use integer literals only. -/
abbrev JSNum := Option Int

def digitsToNat (cs : List Char) : Nat :=
  cs.foldl (fun a c => a * 10 + (c.toNat - 48)) 0

/-- Number(s) on the integer fragment: an optional minus sign followed by
decimal digits; everything else is NaN. -/
def jsNumber (s : String) : JSNum :=
  match s.toList with
  | '-' :: rest =>
    if rest ≠ [] && rest.all Char.isDigit then some (-(digitsToNat rest : Int)) else none
  | cs =>
    if cs ≠ [] && cs.all Char.isDigit then some (digitsToNat cs : Int) else none

/-- A JS Date that may be the Invalid Date (new Date() never throws).  A
valid date is kept as its ISO serialisation. -/
abbrev JSDate := Option String

/-- Modelled from the JS runtime: the Date constructor is modelled on
ISO YYYY-MM-DD inputs; every other string yields the Invalid Date. -/
def jsNewDate (s : String) : JSDate :=
  let cs := s.toList
  if cs.length = 10 then
    let at_ : Nat → Char := fun i => cs.getD i ' '
    if (at_ 0).isDigit && (at_ 1).isDigit && (at_ 2).isDigit && (at_ 3).isDigit
        && at_ 4 = '-' && (at_ 5).isDigit && (at_ 6).isDigit && at_ 7 = '-'
        && (at_ 8).isDigit && (at_ 9).isDigit then
      some (s ++ "T00:00:00.000Z")
    else none
  else none

/-- Inclusive price range filter, findQuery.price with optional $gte and
$lte bounds. -/
structure NumRange where
  gte : Option JSNum := none
  lte : Option JSNum := none
deriving DecidableEq, Repr

/-- The filter document built by getProperties, one optional member per
constraint, field order being the insertion order of the source. -/
structure FindQuery where
  typeId : Option String := none
  stateId : Option String := none
  cityId : Option String := none
  title : Option String := none
  availableFrom : Option JSDate := none
  price : Option NumRange := none
  bedrooms : Option JSNum := none
  bathrooms : Option JSNum := none
  rating : Option JSNum := none
  listingType : Option String := none
  furnished : Option String := none
  amenityIds : Option (List String) := none
  tagIds : Option (List String) := none
deriving DecidableEq, Repr

/-- Lines 11-13: if (req.query?.x) findQuery.x = new ObjectId(req.query.x);
absent or falsy parameters impose no constraint, present ones are parsed
and may throw. -/
def parseIfPresent : Option String → Except String (Option String)
  | none => .ok none
  | some s => if s = "" then .ok none else (newObjectId s).map some

/-- Lines 24-31: Number(param) under a truthiness guard. -/
def numIf : Option String → Option JSNum
  | none => none
  | some s => if s = "" then none else some (jsNumber s)

/-- Lines 37-45: a single string becomes a one-element array; a falsy
value (absent or empty string) leaves the block at lines 47-52 skipped. -/
def normalizeIds : Option StrOrList → Option (List String)
  | none => none
  | some (.str s) => if s = "" then none else some [s]
  | some (.list l) => some l

/-- Lines 48 and 51: ids.map(id => new ObjectId(id)) — each entry parsed
in order, throwing on the first malformed one. -/
def parseIdList : List String → Except String (List String)
  | [] => .ok []
  | s :: rest => do
    let h ← newObjectId s
    let t ← parseIdList rest
    .ok (h :: t)

/-- Lines 47-52: each entry of the normalized list is parsed with
new ObjectId and the $all constraint is installed. -/
def parseIds (o : Option StrOrList) : Except String (Option (List String)) :=
  match normalizeIds o with
  | none => .ok none
  | some l => (parseIdList l).map some

/-- Lines 8-52 of getProperties: build the findQuery filter document from
the query parameters; identifier parses may throw, everything else is
total. -/
def buildFindQuery (q : QueryParams) : Except String FindQuery := do
  let typeId ← parseIfPresent q.typeId
  let stateId ← parseIfPresent q.stateId
  let cityId ← parseIfPresent q.cityId
  let amenityIds ← parseIds q.amenityIds
  let tagIds ← parseIds q.tagIds
  .ok {
    typeId := typeId
    stateId := stateId
    cityId := cityId
    title := if truthy q.title then q.title else none
    availableFrom :=
      if truthy q.availableFrom then some (jsNewDate (q.availableFrom.getD "")) else none
    price :=
      if truthy q.minPrice || truthy q.maxPrice then
        some { gte := numIf q.minPrice, lte := numIf q.maxPrice }
      else none
    bedrooms := numIf q.minBedrooms
    bathrooms := numIf q.minBathrooms
    rating := numIf q.minRating
    listingType := if truthy q.listingType then q.listingType else none
    furnished := if truthy q.furnished then q.furnished else none
    amenityIds := amenityIds
    tagIds := tagIds
  }

/-- Left brace character as text. -/
def jLB : String := "\x7b"

/-- Right brace character as text. -/
def jRB : String := "\x7d"

/-- JSON string escaping (quote and backslash; the claims use strings
without control characters). -/
def jsonEscape (s : String) : String :=
  String.join (s.toList.map (fun c =>
    if c = '"' then "\\\"" else if c = '\\' then "\\\\" else String.singleton c))

def jsonStr (s : String) : String := "\"" ++ jsonEscape s ++ "\""

def jsonField (k v : String) : String := jsonStr k ++ ":" ++ v

def jsonObj (fields : List String) : String :=
  jLB ++ String.intercalate "," fields ++ jRB

def jsonArr (elems : List String) : String :=
  "[" ++ String.intercalate "," elems ++ "]"

/-- JSON.stringify of a possibly-NaN number (NaN serialises to null). -/
def jsonNum : JSNum → String
  | some n => toString n
  | none => "null"

/-- JSON.stringify of a Date (toJSON of the Invalid Date is null). -/
def jsonDate : JSDate → String
  | some iso => jsonStr iso
  | none => "null"

/-- Line 55: JSON.stringify(findQuery) — members in insertion order,
absent members omitted; an ObjectId serialises to its hex string. -/
def stringifyQuery (fq : FindQuery) : String :=
  jsonObj (List.filterMap id [
    fq.typeId.map (fun h => jsonField "typeId" (jsonStr h)),
    fq.stateId.map (fun h => jsonField "stateId" (jsonStr h)),
    fq.cityId.map (fun h => jsonField "cityId" (jsonStr h)),
    fq.title.map (fun t =>
      jsonField "title" (jsonObj [jsonField "$regex" (jsonStr t), jsonField "$options" (jsonStr "i")])),
    fq.availableFrom.map (fun d => jsonField "availableFrom" (jsonObj [jsonField "$lte" (jsonDate d)])),
    fq.price.map (fun r =>
      jsonField "price" (jsonObj (List.filterMap id [
        r.gte.map (fun n => jsonField "$gte" (jsonNum n)),
        r.lte.map (fun n => jsonField "$lte" (jsonNum n))]))),
    fq.bedrooms.map (fun n => jsonField "bedrooms" (jsonObj [jsonField "$gte" (jsonNum n)])),
    fq.bathrooms.map (fun n => jsonField "bathrooms" (jsonObj [jsonField "$gte" (jsonNum n)])),
    fq.rating.map (fun n => jsonField "rating" (jsonObj [jsonField "$gte" (jsonNum n)])),
    fq.listingType.map (fun s => jsonField "listingType" (jsonStr s)),
    fq.furnished.map (fun s => jsonField "furnished" (jsonStr s)),
    fq.amenityIds.map (fun l => jsonField "amenityIds" (jsonObj [jsonField "$all" (jsonArr (l.map jsonStr))])),
    fq.tagIds.map (fun l => jsonField "tagIds" (jsonObj [jsonField "$all" (jsonArr (l.map jsonStr))]))
  ])

/-- JSON.stringify of a BSON value as stored in documents. -/
def jsonBVal : BVal → String
  | .vStr s => jsonStr s
  | .vOid h => jsonStr h
  | .vBool b => if b then "true" else "false"
  | .vNum n => toString n

def jsonDoc (d : Doc) : String :=
  jsonObj (d.map (fun kv => jsonField kv.1 (jsonBVal kv.2)))

/-- JSON.stringify of a result list, as written into the cache store. -/
def serializeDocs (l : List Doc) : String :=
  jsonArr (l.map jsonDoc)

/-- An external-store interaction, recorded in order of occurrence. -/
inductive Event where
  | dbAccess : String → Event
  | cacheGet : String → Event
  | cacheSet : String → Nat → String → Event
  | cacheDel : String → Event
deriving DecidableEq, Repr

def Event.isDb : Event → Bool
  | .dbAccess _ => true
  | _ => false

def Event.isSet : Event → Bool
  | .cacheSet _ _ _ => true
  | _ => false

/-- Response body of a successful read: either the JSON.parse of a cached
string or the freshly fetched document list. -/
inductive Payload where
  | cached : String → Payload
  | fresh : List Doc → Payload
deriving DecidableEq, Repr

/-- Outcome of a read action: HTTP status, envelope message, body, the
cache state after the call and the trace of store events. -/
structure ReadOut where
  status : Nat
  message : String
  payload : Payload
  cache : Cache
  events : List Event
deriving DecidableEq, Repr

/-- The cache-aside read shared by every read action of the service (the
source repeats this block verbatim per action): get the key; on a hit
return the cached value without touching the persistence store; on a miss
fetch, setex under the same key, and return the fresh result. -/
def cacheAsideRead (cache : Cache) (key : String) (ttl : Nat)
    (msgCache msgFresh : String) (fetched : List Doc) (tag : String) : ReadOut :=
  match redisGet cache key with
  | some v =>
    { status := 200, message := msgCache, payload := .cached v
      cache := cache, events := [.cacheGet key] }
  | none =>
    let s := serializeDocs fetched
    { status := 200, message := msgFresh, payload := .fresh fetched
      cache := redisSetex cache key s
      events := [.cacheGet key, .dbAccess tag, .cacheSet key ttl s] }

/-- Lines 6-72, exports.getProperties: build the filter (identifier parses
may throw into the error handler), derive the cache key from its
serialisation, then run the cache-aside read against the opaque
persistence query queries.getProperties. -/
def getProperties (find : FindQuery → List Doc) (cache : Cache)
    (q : QueryParams) : Except String ReadOut := do
  let fq ← buildFindQuery q
  let cacheKey := "properties:" ++ stringifyQuery fq
  .ok (cacheAsideRead cache cacheKey PROPERTY_CACHE_TTL
    "Properties fetched successfully from cache"
    "Properties fetched successfully" (find fq) "getProperties")

/-- Outcome of a write action. -/
structure WriteOut where
  status : Nat
  message : String
  payload : Option Doc
  cache : Cache
  db : DB
  events : List Event
deriving DecidableEq, Repr

/-- Lines 74-94, exports.postProperty: spread the body, then set id from
the timestamp, listerId from the authenticated user id (kept a raw
string), and isVerified to false; insert; then redis.del of the literal
key properties:* . -/
def postProperty (db : DB) (cache : Cache) (userId : String) (body : Doc)
    (nowTs : String) : WriteOut :=
  let propertyData :=
    setField (setField (setField body "id" (.vStr nowTs)) "listerId" (.vStr userId))
      "isVerified" (.vBool false)
  let db2 := dbInsert db propertyData
  let cache2 := redisDel cache "properties:*"
  { status := 201, message := "Property listed successfully"
    payload := some propertyData, cache := cache2, db := db2
    events := [.dbAccess "createProperty", .cacheDel "properties:*"] }

/-- Lines 96-119, exports.getMyProperties: filter on listerId parsed as an
ObjectId (may throw), key myProperties:<user id>, cache-aside read. -/
def getMyProperties (db : DB) (cache : Cache) (userId : String) :
    Except String ReadOut := do
  let uid ← newObjectId userId
  let findQuery : Doc := [("listerId", .vOid uid)]
  let cacheKey := "myProperties:" ++ userId
  .ok (cacheAsideRead cache cacheKey PROPERTY_CACHE_TTL
    "My properties fetched successfully from cache"
    "My properties fetched successfully" (dbFind db findQuery) "getMyProperties")

/-- Lines 121-144, exports.deleteProperty: the filter keeps the path id a
raw string (no ObjectId parse, unlike updateProperty) and parses the user
id; a miss answers 404 with the fixed message; a hit deletes and evicts
the literal properties:* key and the callers myProperties key. -/
def deleteProperty (db : DB) (cache : Cache) (userId : String)
    (propertyId : String) : Except String WriteOut := do
  let uid ← newObjectId userId
  let deleteQuery : Doc := [("_id", .vStr propertyId), ("listerId", .vOid uid)]
  let r := dbFindOneAndDelete db deleteQuery
  match r.1 with
  | none =>
    .ok { status := 404
          message := "Property not found or you don\x27t have permission to delete it"
          payload := none, cache := cache, db := r.2
          events := [.dbAccess "deleteProperty"] }
  | some deleted =>
    .ok { status := 200, message := "Property deleted successfully"
          payload := some deleted
          cache := redisDel (redisDel cache "properties:*") ("myProperties:" ++ userId)
          db := r.2
          events := [.dbAccess "deleteProperty", .cacheDel "properties:*",
                     .cacheDel ("myProperties:" ++ userId)] }

/-- Lines 146-171, exports.updateProperty: both the path id and the user
id are parsed as ObjectIds (either may throw); the body is applied
verbatim as $set; a miss answers 404 with the fixed message; a hit evicts
the literal properties:* key and the callers myProperties key. -/
def updateProperty (db : DB) (cache : Cache) (userId : String)
    (propertyId : String) (body : Doc) : Except String WriteOut := do
  let pid ← newObjectId propertyId
  let uid ← newObjectId userId
  let updateQuery : Doc := [("_id", .vOid pid), ("listerId", .vOid uid)]
  let r := dbFindOneAndUpdate db updateQuery body
  match r.1 with
  | none =>
    .ok { status := 404
          message := "Property not found or you don\x27t have permission to update it"
          payload := none, cache := cache, db := r.2
          events := [.dbAccess "updateProperty"] }
  | some updated =>
    .ok { status := 200, message := "Property updated successfully"
          payload := some updated
          cache := redisDel (redisDel cache "properties:*") ("myProperties:" ++ userId)
          db := r.2
          events := [.dbAccess "updateProperty", .cacheDel "properties:*",
                     .cacheDel ("myProperties:" ++ userId)] }

/-- Lines 173-192, exports.getCity: fixed key, longer reference TTL. -/
def getCity (cities : List Doc) (cache : Cache) : ReadOut :=
  cacheAsideRead cache "cities" CACHE_TTL
    "Cities fetched successfully from cache" "Cities fetched successfully"
    cities "getCity"

/-- Lines 194-213, exports.getState. -/
def getState (states : List Doc) (cache : Cache) : ReadOut :=
  cacheAsideRead cache "states" CACHE_TTL
    "States fetched successfully from cache" "States fetched successfully"
    states "getState"

/-- Lines 215-234, exports.getPropertyType. -/
def getPropertyType (propertyTypes : List Doc) (cache : Cache) : ReadOut :=
  cacheAsideRead cache "propertyTypes" CACHE_TTL
    "Property Types fetched successfully from cache" "Property Types fetched successfully"
    propertyTypes "getPropertyType"

/-- Lines 236-255, exports.getPropertyTag. -/
def getPropertyTag (propertyTags : List Doc) (cache : Cache) : ReadOut :=
  cacheAsideRead cache "propertyTags" CACHE_TTL
    "Property Tags fetched successfully from cache" "Property Tags fetched successfully"
    propertyTags "getPropertyTag"

/-- Lines 257-276, exports.getAmenity. -/
def getAmenity (amenities : List Doc) (cache : Cache) : ReadOut :=
  cacheAsideRead cache "amenities" CACHE_TTL
    "Amenities fetched successfully from cache" "Amenities fetched successfully"
    amenities "getAmenity"

/-- Modelled MongoDB $all operator semantics: an array field satisfies
$all exactly when it contains every listed value. -/
def mongoAll (listed : List String) (arr : List String) : Bool :=
  listed.all (fun id => arr.contains id)

/-- Evaluation of the amenity constraint of a built filter against the
amenity id set of a property document. -/
def docSatisfiesAmenities (fq : FindQuery) (amen : List String) : Bool :=
  match fq.amenityIds with
  | none => true
  | some l => mongoAll l amen

deriving instance DecidableEq for Except

theorem exceptBind_ok {α β : Type} {x : Except String α} {f : α → Except String β} {b : β}
    (h : x >>= f = .ok b) : ∃ a, x = .ok a ∧ f a = .ok b := by
  cases x with
  | error e => simp [Bind.bind, Except.bind] at h
  | ok a => exact ⟨a, rfl, by simpa [Bind.bind, Except.bind] using h⟩

theorem newObjectId_valid {s : String} (h : isValidObjectId s = true) :
    newObjectId s = .ok s := by
  simp [newObjectId, h]

theorem parseIfPresent_eq_ok {o : Option String} {r : Option String}
    (h : parseIfPresent o = .ok r) : r = if truthy o then o else none := by
  cases o with
  | none =>
    simp [parseIfPresent] at h
    simp [truthy, ← h]
  | some s =>
    by_cases hs : s = ""
    · subst hs
      simp [parseIfPresent] at h
      simp [truthy, ← h]
    · simp [parseIfPresent, hs] at h
      unfold newObjectId at h
      split at h
      · simp [Except.map] at h
        simp [truthy, hs, ← h]
      · simp [Except.map] at h

theorem parseIdList_ok : ∀ {l l' : List String}, parseIdList l = .ok l' → l' = l := by
  intro l
  induction l with
  | nil =>
    intro l' h
    simp [parseIdList] at h
    exact h
  | cons s rest ih =>
    intro l' h
    unfold parseIdList at h
    obtain ⟨a, ha, h⟩ := exceptBind_ok h
    obtain ⟨t, ht, h⟩ := exceptBind_ok h
    have has : a = s := by
      unfold newObjectId at ha
      split at ha
      · simpa using ha.symm
      · simp at ha
    have hts := ih ht
    simp at h
    simp [← h, has, hts]

theorem parseIds_eq_ok {o : Option StrOrList} {r : Option (List String)}
    (h : parseIds o = .ok r) : r = normalizeIds o := by
  unfold parseIds at h
  cases hn : normalizeIds o with
  | none =>
    rw [hn] at h
    simp at h
    simp [h]
  | some l =>
    rw [hn] at h
    have h2 : (parseIdList l).map some = .ok r := by simpa using h
    cases hp : parseIdList l with
    | error e => rw [hp] at h2; simp [Except.map] at h2
    | ok l2 =>
      rw [hp] at h2
      simp [Except.map] at h2
      rw [← h2, parseIdList_ok hp]

/-- Claim C3: the built filter carries exactly one constraint per
parameter present and nothing else: the spec example query produces
exactly the price-range and bedrooms constraints, the empty parameter set
produces the match-all empty filter, and in general every member of the
filter equals the constraint of its present parameter and is absent
otherwise (absent members of the FindQuery structure are the omitted
keys). -/
theorem C3_filter_exactly_present_constraints :
    (buildFindQuery { minPrice := some "1000", maxPrice := some "2000", minBedrooms := some "2" }
       = .ok { price := some { gte := some (some 1000), lte := some (some 2000) },
               bedrooms := some (some 2) }) ∧
    (buildFindQuery {} = .ok {}) ∧
    (∀ (q : QueryParams) (fq : FindQuery), buildFindQuery q = .ok fq →
       fq.typeId = (if truthy q.typeId then q.typeId else none) ∧
       fq.stateId = (if truthy q.stateId then q.stateId else none) ∧
       fq.cityId = (if truthy q.cityId then q.cityId else none) ∧
       fq.title = (if truthy q.title then q.title else none) ∧
       fq.availableFrom
         = (if truthy q.availableFrom then some (jsNewDate (q.availableFrom.getD "")) else none) ∧
       fq.price = (if truthy q.minPrice = true ∨ truthy q.maxPrice = true then
                     some { gte := numIf q.minPrice, lte := numIf q.maxPrice } else none) ∧
       fq.bedrooms = numIf q.minBedrooms ∧
       fq.bathrooms = numIf q.minBathrooms ∧
       fq.rating = numIf q.minRating ∧
       fq.listingType = (if truthy q.listingType then q.listingType else none) ∧
       fq.furnished = (if truthy q.furnished then q.furnished else none) ∧
       fq.amenityIds = normalizeIds q.amenityIds ∧
       fq.tagIds = normalizeIds q.tagIds) := by
  refine ⟨by decide, by decide, ?_⟩
  intro q fq h
  unfold buildFindQuery at h
  obtain ⟨t1, h1, h⟩ := exceptBind_ok h
  obtain ⟨t2, h2, h⟩ := exceptBind_ok h
  obtain ⟨t3, h3, h⟩ := exceptBind_ok h
  obtain ⟨a1, h4, h⟩ := exceptBind_ok h
  obtain ⟨a2, h5, h⟩ := exceptBind_ok h
  simp at h
  subst h
  exact ⟨parseIfPresent_eq_ok h1, parseIfPresent_eq_ok h2, parseIfPresent_eq_ok h3,
    rfl, rfl, rfl, rfl, rfl, rfl, rfl, rfl, parseIds_eq_ok h4, parseIds_eq_ok h5⟩

/-- Witness for C3: the general exactness statement applied to a concrete
one-parameter query. -/
theorem C3_filter_exactly_present_constraints_witness :
    buildFindQuery { minRating := some "4" } = .ok { rating := some (some 4) } ∧
    ({ rating := some (some 4) } : FindQuery).rating
      = numIf (({ minRating := some "4" } : QueryParams).minRating) :=
  ⟨by decide,
   (C3_filter_exactly_present_constraints.2.2 { minRating := some "4" }
     { rating := some (some 4) } (by decide)).2.2.2.2.2.2.2.2.1⟩

/-- Claim C1: a successful create is required to make every previously
written property-search cache entry unreachable.  The code instead calls
redis.del with the literal key properties:* , which Redis DEL does not
treat as a pattern: the pre-write entry under properties:\x7b\x7d (the
empty search) survives the create, and the search issued immediately
afterwards answers from the cache with the pre-write data. -/
theorem C1_create_leaves_search_cache_reachable_bug :
    (postProperty [] [("properties:\x7b\x7d", "PRE_WRITE_DATA")]
        "507f191e810c19729de860ea" [("title", BVal.vStr "Flat")] "1700000000000").cache
      = [("properties:\x7b\x7d", "PRE_WRITE_DATA")] ∧
    getProperties (fun _ => [])
        (postProperty [] [("properties:\x7b\x7d", "PRE_WRITE_DATA")]
          "507f191e810c19729de860ea" [("title", BVal.vStr "Flat")] "1700000000000").cache {}
      = .ok { status := 200
              message := "Properties fetched successfully from cache"
              payload := .cached "PRE_WRITE_DATA"
              cache := [("properties:\x7b\x7d", "PRE_WRITE_DATA")]
              events := [.cacheGet "properties:\x7b\x7d"] } := by
  decide

/-- Claim C2: create followed by a read of the callers own properties is
required to return the created entity.  The create stores listerId as the
raw user-id string, while the read filters with that id parsed as an
ObjectId; a BSON string never equals an ObjectId, so the created document
(although present in the store, unverified and carrying the caller) is
absent from the result, which is the empty list. -/
theorem C2_roundtrip_create_then_read_by_owner_bug :
    (postProperty [] [] "507f191e810c19729de860ea"
        [("title", BVal.vStr "Flat")] "1700000000000").db
      = [[("title", BVal.vStr "Flat"), ("id", BVal.vStr "1700000000000"),
          ("listerId", BVal.vStr "507f191e810c19729de860ea"),
          ("isVerified", BVal.vBool false)]] ∧
    getField [("title", BVal.vStr "Flat"), ("id", BVal.vStr "1700000000000"),
        ("listerId", BVal.vStr "507f191e810c19729de860ea"),
        ("isVerified", BVal.vBool false)] "isVerified" = some (BVal.vBool false) ∧
    getMyProperties
        (postProperty [] [] "507f191e810c19729de860ea"
          [("title", BVal.vStr "Flat")] "1700000000000").db
        (postProperty [] [] "507f191e810c19729de860ea"
          [("title", BVal.vStr "Flat")] "1700000000000").cache
        "507f191e810c19729de860ea"
      = .ok { status := 200
              message := "My properties fetched successfully"
              payload := .fresh []
              cache := [("myProperties:507f191e810c19729de860ea", "[]")]
              events := [.cacheGet "myProperties:507f191e810c19729de860ea",
                         .dbAccess "getMyProperties",
                         .cacheSet "myProperties:507f191e810c19729de860ea"
                           PROPERTY_CACHE_TTL "[]"] } := by
  decide

/-- Claim C5: delete is required to use the same ownership-scoped filter
as update, with the target identifier parsed identically.  Update parses
the path id into an ObjectId while delete keeps it a raw string, so on the
same store — one property whose _id is the ObjectId and whose listerId is
the caller — update succeeds with 200 while delete misses and answers the
404 NotFoundOrForbidden response, leaving the store unchanged. -/
theorem C5_delete_filter_differs_from_update_bug :
    updateProperty
        [[("_id", BVal.vOid "507f1f77bcf86cd799439011"),
          ("listerId", BVal.vOid "507f191e810c19729de860ea"),
          ("title", BVal.vStr "Home")]]
        [] "507f191e810c19729de860ea" "507f1f77bcf86cd799439011"
        [("title", BVal.vStr "New")]
      = .ok { status := 200, message := "Property updated successfully"
              payload := some [("_id", BVal.vOid "507f1f77bcf86cd799439011"),
                               ("listerId", BVal.vOid "507f191e810c19729de860ea"),
                               ("title", BVal.vStr "New")]
              cache := []
              db := [[("_id", BVal.vOid "507f1f77bcf86cd799439011"),
                      ("listerId", BVal.vOid "507f191e810c19729de860ea"),
                      ("title", BVal.vStr "New")]]
              events := [.dbAccess "updateProperty", .cacheDel "properties:*",
                         .cacheDel "myProperties:507f191e810c19729de860ea"] } ∧
    deleteProperty
        [[("_id", BVal.vOid "507f1f77bcf86cd799439011"),
          ("listerId", BVal.vOid "507f191e810c19729de860ea"),
          ("title", BVal.vStr "Home")]]
        [] "507f191e810c19729de860ea" "507f1f77bcf86cd799439011"
      = .ok { status := 404
              message := "Property not found or you don\x27t have permission to delete it"
              payload := none
              cache := []
              db := [[("_id", BVal.vOid "507f1f77bcf86cd799439011"),
                      ("listerId", BVal.vOid "507f191e810c19729de860ea"),
                      ("title", BVal.vStr "Home")]]
              events := [.dbAccess "deleteProperty"] } := by
  decide

/-- Claim C7 counterexample: a search whose availableFrom parameter is the
unparseable string not-a-date is claimed to fail with an InvalidDate error
before building a filter or querying the stores.  The JS Date constructor
never throws: the run succeeds, builds the filter whose availableFrom
upper bound is the Invalid Date (serialised as null in the cache key), and
both stores are accessed. -/
theorem C7_unparseable_date_counterexample :
    getProperties (fun _ => []) [] { availableFrom := some "not-a-date" }
      = .ok { status := 200
              message := "Properties fetched successfully"
              payload := .fresh []
              cache := [("properties:\x7b\"availableFrom\":\x7b\"$lte\":null\x7d\x7d", "[]")]
              events := [.cacheGet "properties:\x7b\"availableFrom\":\x7b\"$lte\":null\x7d\x7d",
                         .dbAccess "getProperties",
                         .cacheSet "properties:\x7b\"availableFrom\":\x7b\"$lte\":null\x7d\x7d"
                           PROPERTY_CACHE_TTL "[]"] } := by
  decide

theorem cacheAsideRead_hit {cache : Cache} {key : String} {ttl : Nat}
    {mc mf : String} {fetched : List Doc} {tag : String} {v : String}
    (h : redisGet cache key = some v) :
    cacheAsideRead cache key ttl mc mf fetched tag =
      { status := 200, message := mc, payload := .cached v, cache := cache
        events := [.cacheGet key] } := by
  unfold cacheAsideRead
  rw [h]

theorem cacheAsideRead_miss {cache : Cache} {key : String} {ttl : Nat}
    {mc mf : String} {fetched : List Doc} {tag : String}
    (h : redisGet cache key = none) :
    cacheAsideRead cache key ttl mc mf fetched tag =
      { status := 200, message := mf, payload := .fresh fetched
        cache := redisSetex cache key (serializeDocs fetched)
        events := [.cacheGet key, .dbAccess tag,
                   .cacheSet key ttl (serializeDocs fetched)] } := by
  unfold cacheAsideRead
  rw [h]

theorem redisGet_setex_same (c : Cache) (k v : String) :
    redisGet (redisSetex c k v) k = some v := by
  simp [redisGet, redisSetex, List.find?]

/-- Claim C4: every read action is the cache-aside read applied to its
derived key, and the cache-aside read satisfies the contract — a present
key answers the cached value without any persistence access and with the
cache unchanged; an absent key causes exactly one persistence access and
exactly one cache population, under the derived key, and answers the
fresh result. -/
theorem C4_cache_aside_read_contract :
    (∀ (find : FindQuery → List Doc) (cache : Cache) (q : QueryParams) (fq : FindQuery),
       buildFindQuery q = .ok fq →
       getProperties find cache q =
         .ok (cacheAsideRead cache ("properties:" ++ stringifyQuery fq) PROPERTY_CACHE_TTL
           "Properties fetched successfully from cache"
           "Properties fetched successfully" (find fq) "getProperties")) ∧
    (∀ (db : DB) (cache : Cache) (uid : String), isValidObjectId uid = true →
       getMyProperties db cache uid =
         .ok (cacheAsideRead cache ("myProperties:" ++ uid) PROPERTY_CACHE_TTL
           "My properties fetched successfully from cache"
           "My properties fetched successfully"
           (dbFind db [("listerId", .vOid uid)]) "getMyProperties")) ∧
    (∀ (l : List Doc) (cache : Cache),
       getCity l cache = cacheAsideRead cache "cities" CACHE_TTL
         "Cities fetched successfully from cache" "Cities fetched successfully" l "getCity" ∧
       getState l cache = cacheAsideRead cache "states" CACHE_TTL
         "States fetched successfully from cache" "States fetched successfully" l "getState" ∧
       getPropertyType l cache = cacheAsideRead cache "propertyTypes" CACHE_TTL
         "Property Types fetched successfully from cache"
         "Property Types fetched successfully" l "getPropertyType" ∧
       getPropertyTag l cache = cacheAsideRead cache "propertyTags" CACHE_TTL
         "Property Tags fetched successfully from cache"
         "Property Tags fetched successfully" l "getPropertyTag" ∧
       getAmenity l cache = cacheAsideRead cache "amenities" CACHE_TTL
         "Amenities fetched successfully from cache"
         "Amenities fetched successfully" l "getAmenity") ∧
    (∀ (cache : Cache) (key : String) (ttl : Nat) (mc mf : String)
       (fetched : List Doc) (tag : String) (v : String),
       redisGet cache key = some v →
       (cacheAsideRead cache key ttl mc mf fetched tag).payload = .cached v ∧
       (cacheAsideRead cache key ttl mc mf fetched tag).cache = cache ∧
       ((cacheAsideRead cache key ttl mc mf fetched tag).events.filter Event.isDb).length = 0) ∧
    (∀ (cache : Cache) (key : String) (ttl : Nat) (mc mf : String)
       (fetched : List Doc) (tag : String),
       redisGet cache key = none →
       (cacheAsideRead cache key ttl mc mf fetched tag).payload = .fresh fetched ∧
       ((cacheAsideRead cache key ttl mc mf fetched tag).events.filter Event.isDb).length = 1 ∧
       ((cacheAsideRead cache key ttl mc mf fetched tag).events.filter Event.isSet).length = 1 ∧
       (cacheAsideRead cache key ttl mc mf fetched tag).events
         = [.cacheGet key, .dbAccess tag, .cacheSet key ttl (serializeDocs fetched)] ∧
       redisGet (cacheAsideRead cache key ttl mc mf fetched tag).cache key
         = some (serializeDocs fetched)) := by
  refine ⟨?_, ?_, ?_, ?_, ?_⟩
  · intro find cache q fq h
    simp [getProperties, h, Bind.bind, Except.bind]
  · intro db cache uid h
    simp [getMyProperties, newObjectId_valid h, Bind.bind, Except.bind]
  · intro l cache
    exact ⟨rfl, rfl, rfl, rfl, rfl⟩
  · intro cache key ttl mc mf fetched tag v h
    rw [cacheAsideRead_hit h]
    refine ⟨rfl, rfl, ?_⟩
    simp [Event.isDb]
  · intro cache key ttl mc mf fetched tag h
    rw [cacheAsideRead_miss h]
    refine ⟨rfl, ?_, ?_, rfl, ?_⟩
    · simp [Event.isDb]
    · simp [Event.isSet]
    · exact redisGet_setex_same cache key (serializeDocs fetched)

/-- Witness for C4: the search read on a cold cache with the empty filter,
through the contract theorem. -/
theorem C4_cache_aside_read_contract_witness :
    getProperties (fun _ => []) [] {} =
      .ok (cacheAsideRead [] ("properties:" ++ stringifyQuery {}) PROPERTY_CACHE_TTL
        "Properties fetched successfully from cache"
        "Properties fetched successfully" [] "getProperties") :=
  C4_cache_aside_read_contract.1 (fun _ => []) [] {} {} (by decide)

theorem matchesEq_pair_false_fst {d : Doc} {k1 k2 : String} {v1 v2 : BVal}
    (h : getField d k1 ≠ some v1) : matchesEq d [(k1, v1), (k2, v2)] = false := by
  simp [matchesEq, h]

theorem matchesEq_pair_false_snd {d : Doc} {k1 k2 : String} {v1 v2 : BVal}
    (h : getField d k2 ≠ some v2) : matchesEq d [(k1, v1), (k2, v2)] = false := by
  simp [matchesEq, h]

theorem findOneAndUpdate_none {db : DB} {fil s : Doc}
    (h : ∀ d ∈ db, matchesEq d fil = false) :
    dbFindOneAndUpdate db fil s = (none, db) := by
  induction db with
  | nil => rfl
  | cons d rest ih =>
    have hd : matchesEq d fil = false := h d (by simp)
    have hrest := ih (fun x hx => h x (by simp [hx]))
    simp [dbFindOneAndUpdate, hd, hrest]

theorem findOneAndDelete_none {db : DB} {fil : Doc}
    (h : ∀ d ∈ db, matchesEq d fil = false) :
    dbFindOneAndDelete db fil = (none, db) := by
  induction db with
  | nil => rfl
  | cons d rest ih =>
    have hd : matchesEq d fil = false := h d (by simp)
    have hrest := ih (fun x hx => h x (by simp [hx]))
    simp [dbFindOneAndDelete, hd, hrest]

/-- Claim C6: for update and for delete, the response produced when the
target exists but belongs to a different lister (store db1) is identical —
same status 404, same fixed message, same empty payload, same untouched
cache — to the response produced when no property with that identifier
exists at all (store db2); only the unexposed store itself differs. -/
theorem C6_nonowner_vs_missing_same_response
    (db1 db2 : DB) (cache : Cache) (uid pid other : String) (body : Doc)
    (hu : isValidObjectId uid = true) (hp : isValidObjectId pid = true)
    (hother : other ≠ uid)
    (hexists : ∃ d ∈ db1, getField d "_id" = some (.vOid pid) ∧
      getField d "listerId" = some (.vOid other))
    (h1 : ∀ d ∈ db1, getField d "listerId" ≠ some (.vOid uid))
    (h2 : ∀ d ∈ db2, getField d "_id" ≠ some (.vOid pid) ∧
      getField d "_id" ≠ some (.vStr pid)) :
    updateProperty db1 cache uid pid body =
      .ok { status := 404
            message := "Property not found or you don\x27t have permission to update it"
            payload := none, cache := cache, db := db1
            events := [.dbAccess "updateProperty"] } ∧
    updateProperty db2 cache uid pid body =
      .ok { status := 404
            message := "Property not found or you don\x27t have permission to update it"
            payload := none, cache := cache, db := db2
            events := [.dbAccess "updateProperty"] } ∧
    deleteProperty db1 cache uid pid =
      .ok { status := 404
            message := "Property not found or you don\x27t have permission to delete it"
            payload := none, cache := cache, db := db1
            events := [.dbAccess "deleteProperty"] } ∧
    deleteProperty db2 cache uid pid =
      .ok { status := 404
            message := "Property not found or you don\x27t have permission to delete it"
            payload := none, cache := cache, db := db2
            events := [.dbAccess "deleteProperty"] } := by
  have hu1 : dbFindOneAndUpdate db1 [("_id", .vOid pid), ("listerId", .vOid uid)] body
      = (none, db1) :=
    findOneAndUpdate_none (fun d hd => matchesEq_pair_false_snd (h1 d hd))
  have hu2 : dbFindOneAndUpdate db2 [("_id", .vOid pid), ("listerId", .vOid uid)] body
      = (none, db2) :=
    findOneAndUpdate_none (fun d hd => matchesEq_pair_false_fst (h2 d hd).1)
  have hd1 : dbFindOneAndDelete db1 [("_id", .vStr pid), ("listerId", .vOid uid)]
      = (none, db1) :=
    findOneAndDelete_none (fun d hd => matchesEq_pair_false_snd (h1 d hd))
  have hd2 : dbFindOneAndDelete db2 [("_id", .vStr pid), ("listerId", .vOid uid)]
      = (none, db2) :=
    findOneAndDelete_none (fun d hd => matchesEq_pair_false_fst (h2 d hd).2)
  refine ⟨?_, ?_, ?_, ?_⟩
  · simp [updateProperty, newObjectId_valid hu, newObjectId_valid hp,
      Bind.bind, Except.bind, hu1]
  · simp [updateProperty, newObjectId_valid hu, newObjectId_valid hp,
      Bind.bind, Except.bind, hu2]
  · simp [deleteProperty, newObjectId_valid hu, Bind.bind, Except.bind, hd1]
  · simp [deleteProperty, newObjectId_valid hu, Bind.bind, Except.bind, hd2]

/-- Witness for C6: a store holding the target owned by another lister
versus an empty store, at concrete identifiers. -/
theorem C6_nonowner_vs_missing_same_response_witness :
    updateProperty
        [[("_id", BVal.vOid "cccccccccccccccccccccccc"),
          ("listerId", BVal.vOid "bbbbbbbbbbbbbbbbbbbbbbbb")]]
        [] "aaaaaaaaaaaaaaaaaaaaaaaa" "cccccccccccccccccccccccc"
        [("title", BVal.vStr "X")] =
      .ok { status := 404
            message := "Property not found or you don\x27t have permission to update it"
            payload := none, cache := []
            db := [[("_id", BVal.vOid "cccccccccccccccccccccccc"),
                    ("listerId", BVal.vOid "bbbbbbbbbbbbbbbbbbbbbbbb")]]
            events := [.dbAccess "updateProperty"] } ∧
    updateProperty [] [] "aaaaaaaaaaaaaaaaaaaaaaaa" "cccccccccccccccccccccccc"
        [("title", BVal.vStr "X")] =
      .ok { status := 404
            message := "Property not found or you don\x27t have permission to update it"
            payload := none, cache := [], db := []
            events := [.dbAccess "updateProperty"] } :=
  ⟨(C6_nonowner_vs_missing_same_response
      [[("_id", BVal.vOid "cccccccccccccccccccccccc"),
        ("listerId", BVal.vOid "bbbbbbbbbbbbbbbbbbbbbbbb")]]
      [] [] "aaaaaaaaaaaaaaaaaaaaaaaa" "cccccccccccccccccccccccc"
      "bbbbbbbbbbbbbbbbbbbbbbbb" [("title", BVal.vStr "X")]
      (by decide) (by decide) (by decide)
      (by decide) (by decide) (by decide)).1,
   (C6_nonowner_vs_missing_same_response
      [[("_id", BVal.vOid "cccccccccccccccccccccccc"),
        ("listerId", BVal.vOid "bbbbbbbbbbbbbbbbbbbbbbbb")]]
      [] [] "aaaaaaaaaaaaaaaaaaaaaaaa" "cccccccccccccccccccccccc"
      "bbbbbbbbbbbbbbbbbbbbbbbb" [("title", BVal.vStr "X")]
      (by decide) (by decide) (by decide)
      (by decide) (by decide) (by decide)).2.1⟩

/-- Claim C7 as amended: an availableFrom value that does not parse is not
rejected — the Date constructor yields the Invalid Date, the filter is
built with that invalid upper bound (whose serialisation in the cache key
is null), and the request proceeds to the cache-aside read against the
stores exactly as for a parseable date. -/
theorem C7_unparseable_date_not_rejected (s : String) (find : FindQuery → List Doc)
    (cache : Cache) (hs : s ≠ "") (hd : jsNewDate s = none) :
    getProperties find cache { availableFrom := some s } =
      .ok (cacheAsideRead cache
        ("properties:" ++ stringifyQuery { availableFrom := some none })
        PROPERTY_CACHE_TTL
        "Properties fetched successfully from cache"
        "Properties fetched successfully"
        (find { availableFrom := some none }) "getProperties") := by
  have hb : buildFindQuery { availableFrom := some s }
      = .ok { availableFrom := some none } := by
    simp [buildFindQuery, parseIfPresent, parseIds, normalizeIds, truthy, hs, hd,
      numIf, Bind.bind, Except.bind]
  simp [getProperties, hb, Bind.bind, Except.bind]

/-- Witness for C7: the amended statement at the concrete unparseable
string not-a-date on a cold cache. -/
theorem C7_unparseable_date_not_rejected_witness :
    getProperties (fun _ => []) [] { availableFrom := some "not-a-date" } =
      .ok (cacheAsideRead []
        ("properties:" ++ stringifyQuery { availableFrom := some none })
        PROPERTY_CACHE_TTL
        "Properties fetched successfully from cache"
        "Properties fetched successfully" [] "getProperties") :=
  C7_unparseable_date_not_rejected "not-a-date" (fun _ => []) [] (by decide) (by decide)

/-- Claim C8: a single-string amenityIds or tagIds parameter is wrapped
into a one-element list before its entries are parsed as identifiers, and
the installed $all constraint holds of a document exactly when the
documents id set contains every listed id — so a merely intersecting set
(witnessed by the closing concrete conjunct) does not satisfy it. -/
theorem C8_single_string_ids_and_containment :
    (∀ s : String, isValidObjectId s = true →
       buildFindQuery { amenityIds := some (.str s) }
         = .ok { amenityIds := some [s] } ∧
       buildFindQuery { tagIds := some (.str s) }
         = .ok { tagIds := some [s] }) ∧
    (∀ (fq : FindQuery) (l amen : List String), fq.amenityIds = some l →
       (docSatisfiesAmenities fq amen = true ↔ ∀ id ∈ l, id ∈ amen)) ∧
    (mongoAll ["aaaaaaaaaaaaaaaaaaaaaaaa", "bbbbbbbbbbbbbbbbbbbbbbbb"]
        ["aaaaaaaaaaaaaaaaaaaaaaaa", "dddddddddddddddddddddddd"] = false ∧
     ("aaaaaaaaaaaaaaaaaaaaaaaa" : String)
       ∈ ["aaaaaaaaaaaaaaaaaaaaaaaa", "dddddddddddddddddddddddd"]) := by
  refine ⟨?_, ?_, by decide, by decide⟩
  · intro s hs
    have hne : s ≠ "" := by
      rintro rfl
      exact absurd hs (by decide)
    constructor
    · simp [buildFindQuery, parseIfPresent, parseIds, normalizeIds, hne, truthy,
        numIf, parseIdList, newObjectId_valid hs, Bind.bind, Except.bind, Except.map]
    · simp [buildFindQuery, parseIfPresent, parseIds, normalizeIds, hne, truthy,
        numIf, parseIdList, newObjectId_valid hs, Bind.bind, Except.bind, Except.map]
  · intro fq l amen h
    simp [docSatisfiesAmenities, h, mongoAll, List.all_eq_true]

/-- Witness for C8: the single-string normalization at a concrete valid
identifier, through the claim theorem. -/
theorem C8_single_string_ids_and_containment_witness :
    buildFindQuery { amenityIds := some (.str "aaaaaaaaaaaaaaaaaaaaaaaa") }
      = .ok { amenityIds := some ["aaaaaaaaaaaaaaaaaaaaaaaa"] } :=
  (C8_single_string_ids_and_containment.1 "aaaaaaaaaaaaaaaaaaaaaaaa" (by decide)).1

theorem getField_setField_same (d : Doc) (k : String) (v : BVal) :
    getField (setField d k v) k = some v := by
  induction d with
  | nil => simp [setField, getField]
  | cons p rest ih =>
    by_cases hp : p.1 = k
    · simp [setField, getField, hp, List.find?_cons]
    · by_cases hr : rest.any (fun q => q.1 = k)
      · have ih2 : getField (rest.map (fun q => if q.1 = k then (k, v) else q)) k
            = some v := by
          simpa [setField, hr] using ih
        simp [setField, getField, hp, hr, List.find?_cons] at ih2 ⊢
        exact ih2
      · have ih2 : getField (rest ++ [(k, v)]) k = some v := by
          simpa [setField, hr] using ih
        simp [setField, getField, hp, hr, List.find?_cons] at ih2 ⊢
        exact ih2

theorem getField_map_set_other (d : Doc) (k k2 : String) (v : BVal)
    (h2 : ¬ k = k2) :
    getField (d.map (fun p => if p.1 = k then (k, v) else p)) k2 = getField d k2 := by
  induction d with
  | nil => rfl
  | cons p rest ih =>
    by_cases hp : p.1 = k
    · have hp2 : ¬ p.1 = k2 := by rw [hp]; exact h2
      simpa [getField, List.find?_cons, hp, hp2, h2] using ih
    · have h2s : ¬ k2 = k := fun he => h2 he.symm
      by_cases hq : p.1 = k2
      · simp [getField, List.find?_cons, hp, hq, h2s]
      · simpa [getField, List.find?_cons, hp, hq, h2s] using ih

theorem getField_append_new (d : Doc) (k k2 : String) (v : BVal)
    (h2 : ¬ k = k2) : getField (d ++ [(k, v)]) k2 = getField d k2 := by
  induction d with
  | nil => simp [getField, List.find?_cons, h2]
  | cons p rest ih =>
    by_cases hq : p.1 = k2
    · simp [getField, List.find?_cons, hq]
    · simpa [getField, List.find?_cons, hq] using ih

theorem getField_setField_other (d : Doc) (k k2 : String) (v : BVal)
    (h : k2 ≠ k) : getField (setField d k v) k2 = getField d k2 := by
  have h2 : ¬ k = k2 := fun he => h he.symm
  unfold setField
  split
  · exact getField_map_set_other d k k2 v h2
  · exact getField_append_new d k k2 v h2

theorem getField_applySet_not_mem (d : Doc) (body : Doc) (k : String)
    (h : k ∉ body.map Prod.fst) : getField (applySet d body) k = getField d k := by
  induction body generalizing d with
  | nil => rfl
  | cons kv rest ih =>
    have hk : k ≠ kv.1 := by
      intro he
      exact h (by simp [he])
    have hrest : k ∉ rest.map Prod.fst := by
      intro hm
      exact h (by simp [hm])
    calc getField (applySet (setField d kv.1 kv.2) rest) k
        = getField (setField d kv.1 kv.2) k := ih (setField d kv.1 kv.2) hrest
      _ = getField d k := getField_setField_other d kv.1 k kv.2 hk

theorem getField_applySet_mem : ∀ (body d : Doc) (k : String) (v : BVal),
    (body.map Prod.fst).Nodup → (k, v) ∈ body →
    getField (applySet d body) k = some v := by
  intro body
  induction body with
  | nil =>
    intro d k v hnd hin
    cases hin
  | cons kv rest ih =>
    intro d k v hnd hin
    rcases List.mem_cons.mp hin with he | hm
    · have he2 : kv = (k, v) := he.symm
      subst he2
      have hcons : (k :: rest.map Prod.fst).Nodup := by simpa using hnd
      have hnotin : k ∉ rest.map Prod.fst := (List.nodup_cons.mp hcons).1
      show getField (applySet (setField d k v) rest) k = some v
      rw [getField_applySet_not_mem _ rest k hnotin, getField_setField_same]
    · have hcons : (kv.1 :: rest.map Prod.fst).Nodup := by simpa using hnd
      have hnd2 : (rest.map Prod.fst).Nodup := (List.nodup_cons.mp hcons).2
      exact ih (setField d kv.1 kv.2) k v hnd2 hm

/-- Claim C9: a matched update applies every binding of the request body
verbatim through $set — any field with a unique key in the body ends up
stored with exactly the bodys value — and no field is protected: the
concrete conjunct shows an owner setting isVerified to true and listerId
to an arbitrary string through an ordinary update. -/
theorem C9_update_set_is_unrestricted :
    (∀ (d body : Doc) (k : String) (v : BVal),
       (body.map Prod.fst).Nodup → (k, v) ∈ body →
       getField (applySet d body) k = some v) ∧
    updateProperty
        [[("_id", BVal.vOid "cccccccccccccccccccccccc"),
          ("listerId", BVal.vOid "aaaaaaaaaaaaaaaaaaaaaaaa"),
          ("isVerified", BVal.vBool false),
          ("title", BVal.vStr "Home")]]
        [] "aaaaaaaaaaaaaaaaaaaaaaaa" "cccccccccccccccccccccccc"
        [("isVerified", BVal.vBool true), ("listerId", BVal.vStr "attacker")]
      = .ok { status := 200, message := "Property updated successfully"
              payload := some [("_id", BVal.vOid "cccccccccccccccccccccccc"),
                               ("listerId", BVal.vStr "attacker"),
                               ("isVerified", BVal.vBool true),
                               ("title", BVal.vStr "Home")]
              cache := []
              db := [[("_id", BVal.vOid "cccccccccccccccccccccccc"),
                      ("listerId", BVal.vStr "attacker"),
                      ("isVerified", BVal.vBool true),
                      ("title", BVal.vStr "Home")]]
              events := [.dbAccess "updateProperty", .cacheDel "properties:*",
                         .cacheDel "myProperties:aaaaaaaaaaaaaaaaaaaaaaaa"] } := by
  constructor
  · intro d body k v hnd hin
    exact getField_applySet_mem body d k v hnd hin
  · decide

/-- Witness for C9: the verbatim-$set statement at a concrete document and
body. -/
theorem C9_update_set_is_unrestricted_witness :
    getField (applySet [("isVerified", BVal.vBool false)]
        [("isVerified", BVal.vBool true)]) "isVerified"
      = some (BVal.vBool true) :=
  C9_update_set_is_unrestricted.1 [("isVerified", BVal.vBool false)]
    [("isVerified", BVal.vBool true)] "isVerified" (BVal.vBool true)
    (by decide) (by decide)

theorem redisGet_del_other (c : Cache) (k kd : String) (h : k ≠ kd) :
    redisGet (redisDel c kd) k = redisGet c k := by
  induction c with
  | nil => rfl
  | cons p rest ih =>
    have hkd : ¬ kd = k := fun he => h he.symm
    by_cases hp : p.1 = kd
    · have hpk : ¬ p.1 = k := by rw [hp]; exact hkd
      simpa [redisDel, redisGet, List.find?_cons, hp, hpk, hkd, h] using ih
    · by_cases hk : p.1 = k
      · simp [redisDel, redisGet, List.find?_cons, hp, hk, hkd, h]
      · simpa [redisDel, redisGet, List.find?_cons, hp, hk, hkd, h] using ih

theorem myKey_ne_star (uid : String) :
    ("myProperties:" ++ uid) ≠ "properties:*" := by
  intro h
  have h2 := congrArg String.length h
  rw [String.length_append] at h2
  have h3 : ("myProperties:" : String).length = 13 := rfl
  have h4 : ("properties:*" : String).length = 12 := rfl
  rw [h3, h4] at h2
  omega

/-- Claim C10: the create path touches the cache only through the del of
the literal properties:* key, so the creating callers own-properties
entry under myProperties:<caller id> is untouched, and a my-properties
read issued after the create still answers the entry cached before the
create. -/
theorem C10_create_spares_my_properties_cache
    (db : DB) (cache : Cache) (uid : String) (body : Doc) (ts : String) :
    (postProperty db cache uid body ts).cache = redisDel cache "properties:*" ∧
    redisGet (postProperty db cache uid body ts).cache ("myProperties:" ++ uid)
      = redisGet cache ("myProperties:" ++ uid) ∧
    (∀ stale : String, isValidObjectId uid = true →
       redisGet cache ("myProperties:" ++ uid) = some stale →
       getMyProperties (postProperty db cache uid body ts).db
           (postProperty db cache uid body ts).cache uid =
         .ok { status := 200
               message := "My properties fetched successfully from cache"
               payload := .cached stale
               cache := (postProperty db cache uid body ts).cache
               events := [.cacheGet ("myProperties:" ++ uid)] }) := by
  have hframe : redisGet (postProperty db cache uid body ts).cache ("myProperties:" ++ uid)
      = redisGet cache ("myProperties:" ++ uid) :=
    redisGet_del_other cache ("myProperties:" ++ uid) "properties:*" (myKey_ne_star uid)
  refine ⟨rfl, hframe, ?_⟩
  intro stale hu hc
  have hc2 : redisGet (postProperty db cache uid body ts).cache ("myProperties:" ++ uid)
      = some stale := hframe.trans hc
  simp [getMyProperties, newObjectId_valid hu, Bind.bind, Except.bind,
    cacheAsideRead_hit hc2]

/-- Witness for C10: a pre-create own-properties entry at a concrete
caller is still served after the create, through the claim theorem. -/
theorem C10_create_spares_my_properties_cache_witness :
    getMyProperties
        (postProperty [] [("myProperties:" ++ "aaaaaaaaaaaaaaaaaaaaaaaa", "OLD")]
          "aaaaaaaaaaaaaaaaaaaaaaaa" [("title", BVal.vStr "F")] "1").db
        (postProperty [] [("myProperties:" ++ "aaaaaaaaaaaaaaaaaaaaaaaa", "OLD")]
          "aaaaaaaaaaaaaaaaaaaaaaaa" [("title", BVal.vStr "F")] "1").cache
        "aaaaaaaaaaaaaaaaaaaaaaaa" =
      .ok { status := 200
            message := "My properties fetched successfully from cache"
            payload := .cached "OLD"
            cache := (postProperty [] [("myProperties:" ++ "aaaaaaaaaaaaaaaaaaaaaaaa", "OLD")]
              "aaaaaaaaaaaaaaaaaaaaaaaa" [("title", BVal.vStr "F")] "1").cache
            events := [.cacheGet ("myProperties:" ++ "aaaaaaaaaaaaaaaaaaaaaaaa")] } :=
  (C10_create_spares_my_properties_cache []
      [("myProperties:" ++ "aaaaaaaaaaaaaaaaaaaaaaaa", "OLD")]
      "aaaaaaaaaaaaaaaaaaaaaaaa" [("title", BVal.vStr "F")] "1").2.2
    "OLD" (by decide) (by decide)

end PropertyListing
